import Mathlib

/-!
Shallow embedding of `news_bot.py`, a scheduled news-digest pipeline:
feed reading, per-article scraping with fallback strategies, summarization
via an external generative API, digest assembly under a size budget, and a
single push notification.  External effects (HTTP fetches, HTML parsing,
the generative API, the messaging POST) are modelled as oracle inputs; the
pure control flow and string assembly are translated directly from the
source.  Python string slicing and `len` act on code points, matching
Lean's `String.data : List Char` model, so slicing is modelled as
`List.take` on `data` and joining as Python's `str.join`.
-/

namespace NewsBot

/-- Python `s[:n]` (slice by code points). -/
def pySlice (s : String) (n : Nat) : String := ⟨s.data.take n⟩

/-- Python `sep.join(xs)`. -/
def pyJoin (sep : String) : List String → String
  | [] => ""
  | [x] => x
  | x :: y :: rest => x ++ sep ++ pyJoin sep (y :: rest)

/-- Python `s.strip()` (whitespace stripped from both ends, by code
points). -/
def pyStrip (s : String) : String :=
  ⟨((s.data.dropWhile Char.isWhitespace).reverse.dropWhile Char.isWhitespace).reverse⟩

/-- Python truthiness of an optional string: `None` and `""` are falsy.
`none` models Python `None`, `some s` a string value. -/
def strFalsy : Option String → Bool
  | none => true
  | some s => s.isEmpty

/-- One feed entry as consumed by the code (`entry.title`, `entry.link`). -/
structure Entry where
  title : String
  link : String
deriving DecidableEq

/-- The dictionaries with keys `title` and `url` built by
`get_latest_news_from_rss`. -/
structure NewsItem where
  title : String
  url : String
deriving DecidableEq

/-- Embedding of `get_latest_news_from_rss(rss_url, count)`: the outcome of
`feedparser.parse` is the oracle input `feed` (`none` = the `try` block
raised; `some entries` = parsed entries).  On an exception or an empty
entry list the function returns `[]`; otherwise it maps the first `count`
entries to NewsItem dictionaries, in feed order. -/
def get_latest_news_from_rss (feed : Option (List Entry)) (count : Nat) : List NewsItem :=
  match feed with
  | none => []
  | some entries =>
      if entries.isEmpty then []
      else (entries.take count).map (fun e => { title := e.title, url := e.link })

/-- The parsed page as seen by `scrape_article_body` after
`BeautifulSoup(response.content)`.  Fields are the outcomes of the soup
queries the code performs, paragraph texts already stripped
(`get_text(strip=True)`):
* `matchedParagraphs` — texts of the `find_all` over `p` elements whose
  class attribute contains `sc-` or `article_body`;
* `articleBodyDiv` — `some ps` when the `div` with class `article_body`
  exists, with `ps` the texts of its `p` children;
* `mainText` — `some t` when a `main` element exists, `t` its text with
  newline separator, stripped;
* `fullText` — the whole-soup text with newline separator, stripped. -/
structure Page where
  matchedParagraphs : List String
  articleBodyDiv : Option (List String)
  mainText : Option String
  fullText : String
deriving DecidableEq

/-- The paragraph list `scrape_article_body` ends up with after the first
two strategies: the class-matched paragraphs, else the `article_body`
container's paragraphs, else none. -/
def effectiveParagraphs (page : Page) : List String :=
  if page.matchedParagraphs.isEmpty then
    match page.articleBodyDiv with
    | some ps => ps
    | none => []
  else page.matchedParagraphs

/-- Embedding of the list-comprehension join: non-empty paragraph texts
joined with newlines, `"\n".join([... if p.get_text(strip=True)])`. -/
def joinedParagraphText (page : Page) : String :=
  pyJoin "\n" ((effectiveParagraphs page).filter (fun p => !p.isEmpty))

/-- The `MAX_CHARS` cap of `scrape_article_body`. -/
def MAX_CHARS : Nat := 3000

/-- Embedding of `scrape_article_body(url)`.  The oracle input `fetch` is
the outcome of `requests.get` + `raise_for_status` + parsing: `none` when
the request (or anything else in the `try` block) raised, `some page` when
the page loaded.  With paragraphs found the joined text is capped at
`MAX_CHARS` plus an ellipsis; with no paragraphs the code returns the
main-content text (or the full page text) directly, without the cap. -/
def scrape_article_body (fetch : Option Page) : Option String :=
  match fetch with
  | none => none
  | some page =>
      if (effectiveParagraphs page).isEmpty then
        some (match page.mainText with
              | some t => t
              | none => page.fullText)
      else
        let article_text := joinedParagraphText page
        if MAX_CHARS < article_text.length then
          some (pySlice article_text MAX_CHARS ++ "...")
        else
          some article_text

/-- The fixed sentinel returned by `summarize_and_add_furigana` when the
article text is absent or empty. -/
def noSummarySentinel : String := "記事本文が見つからなかったため、要約できませんでした。"

/-- The text of the user prompt before the interpolated title. -/
def promptBeforeTitle : String :=
  "\n    以下のニュース記事のタイトルと本文を読み、以下の要件を満たすテキストを生成してください。\n    \n    【要件】\n    1. 記事の内容を**3行以内**で、分かりやすく**要約**してください。\n    2. 要約文の中で、**難しい漢字、専門用語、人名、地名**にのみ、括弧書きで**フリガナ**を付けてください。全ての漢字にフリガナを付ける必要はありません。\n    3. 記事本文に含まれる**難しい専門用語**や**馴染みの薄い単語**があれば、その**意味を簡潔に**一行で補足してください（補足がない場合は[単語解説]セクション自体を省略してください）。\n    \n    【出力フォーマット】\n    [要約]\n    要約テキスト1行目（フリガナを適切に付与）\n    要約テキスト2行目\n    要約テキスト3行目\n    \n    [単語解説]\n    （補足が必要な場合のみ記載）単語: 意味\n    \n    ---\n    \n    【記事タイトル】\n    "

/-- The text of the user prompt between the interpolated title and body. -/
def promptBetween : String := "\n    \n    【記事本文】\n    "

/-- The text of the user prompt after the interpolated body. -/
def promptAfter : String := "\n    "

/-- The f-string prompt of `summarize_and_add_furigana` with `title` and
`article_text` interpolated. -/
def buildPrompt (title article_text : String) : String :=
  promptBeforeTitle ++ title ++ promptBetween ++ article_text ++ promptAfter

/-- Embedding of `summarize_and_add_furigana(title, article_text)`.  The
oracle `api` maps the user prompt to the outcome of the single
`chat.completions.create` call: `Except.ok content` is the content of the
first choice, `Except.error e` the string rendering of a raised exception.
Result: the returned string paired with the number of API calls made.  The
function is total — it never propagates an exception.  Absent or empty
text (Python falsy) short-circuits to the sentinel with no API call; an
API failure yields a degraded string embedding the error detail. -/
def summarize_and_add_furigana (title : String) (article_text : Option String)
    (api : String → Except String String) : String × Nat :=
  if strFalsy article_text then (noSummarySentinel, 0)
  else
    match api (buildPrompt title (article_text.getD "")) with
    | .ok content => (pyStrip content, 1)
    | .error e => ("要約生成中にエラーが発生しました。\nエラー内容: " ++ e, 1)

/-- Embedding of `send_line_message(user_id, message, token)`.  The oracle
`post` is the outcome of the single `requests.post` to the push endpoint
followed by `raise_for_status`: `Except.ok ()` when the POST succeeded
with a success (2xx) status, `Except.error e` when a `RequestException`
was raised (non-success status or transport failure).  Result: the boolean
the function returns, paired with the number of HTTP POSTs attempted.
Missing or empty `user_id` or `token` short-circuits to `false` with no
POST; otherwise exactly one POST is made, `true` on success, `false` on a
caught `RequestException`; there is no retry. -/
def send_line_message (user_id : Option String) (message : String)
    (token : Option String) (post : Except String Unit) : Bool × Nat :=
  if strFalsy user_id || strFalsy token then (false, 0)
  else
    match post with
    | .ok _ => (true, 1)
    | .error _ => (false, 1)

/-- The fallback text sent when the feed yields no items. -/
def fallbackText : String := "今朝のニュースを取得できませんでした。"

/-- The extraction-failure notice placed in a SummaryBlock when
`article_text` is falsy. -/
def extractFailNotice : String := "[エラー] 本文取得失敗。URLをご確認ください。\n"

/-- The header line of the SummaryBlock for item index `i` (0-based; the
code prints `i+1`). -/
def itemHeader (i : Nat) (title : String) : String :=
  "📰 **記事 " ++ toString (i + 1) ++ "**：" ++ title ++ "\n"

/-- The trailing source-link line of a SummaryBlock. -/
def urlLine (url : String) : String := "\n🔗 記事URL: " ++ url

/-- The oracle environment of one run: the feed outcome, the per-url page
outcome, the per-prompt generative-API outcome.  Sequential and
deterministic, matching the single-threaded run. -/
structure Env where
  feed : Option (List Entry)
  pageOf : String → Option Page
  apiOf : String → Except String String

/-- One iteration of the per-item loop of `main`: scrapes the url, builds
the SummaryBlock (header, then either the failure notice under a Python
falsy `article_text` or the summarizer output, then the url line), and
records the summarizer invocations it made as (title, article text)
pairs. -/
def processItem (env : Env) (i : Nat) (item : NewsItem) : String × List (String × String) :=
  let article_text := scrape_article_body (env.pageOf item.url)
  let header := itemHeader i item.title
  match article_text with
  | none => (header ++ extractFailNotice ++ urlLine item.url, [])
  | some s =>
      if s.isEmpty then (header ++ extractFailNotice ++ urlLine item.url, [])
      else
        (header ++ (summarize_and_add_furigana item.title (some s) env.apiOf).1
           ++ urlLine item.url, [(item.title, s)])

/-- The separator joining SummaryBlocks. -/
def blockSeparator : String := "\n\n----------------------------------\n\n"

/-- Assembly of `final_message`: banner with the item count, the joined
blocks, and the footer. -/
def assembleDigest (n : Nat) (blocks : List String) : String :=
  "🌞 今朝の厳選ニュース " ++ toString n ++ "本 🗞️\n" ++
  "==================================\n\n" ++
  pyJoin blockSeparator blocks ++
  "\n\n=================================="

/-- The marker appended after truncating an over-long final message. -/
def lineTruncMarker : String := "...\n(メッセージが長すぎるため途中で省略されました)"

/-- The length check of `main`: a final message longer than 4800
characters is cut at 4800 and the truncation marker is appended. -/
def capMessage (m : String) : String :=
  if 4800 < m.length then pySlice m 4800 ++ lineTruncMarker else m

/-- The observable outcome of one run of `main`:
* `sent` — the messages passed to `send_line_message`, in order;
* `blocks` — the accumulated `all_summaries` list;
* `scrapedUrls` — the urls passed to `scrape_article_body`, in order;
* `summarizeCalls` — the (title, article text) pairs passed to
  `summarize_and_add_furigana`, in order. -/
structure RunResult where
  sent : List String
  blocks : List String
  scrapedUrls : List String
  summarizeCalls : List (String × String)
deriving DecidableEq

/-- The news list `main` works on. -/
def newsListOf (env : Env) : List NewsItem :=
  get_latest_news_from_rss env.feed 3

/-- The digest `main` assembles on the non-empty path, before the length
check. -/
def assembledDigest (env : Env) : String :=
  assembleDigest (newsListOf env).length
    (((newsListOf env).enum).map (fun p => (processItem env p.1 p.2).1))

/-- Embedding of `main()`.  An empty news list short-circuits: the fixed
fallback text is sent and nothing is scraped or summarized.  Otherwise
each item is processed in order (the inter-item `time.sleep(1)` has no
observable effect in this model), the digest is assembled, length-capped,
and sent once. -/
def main (env : Env) : RunResult :=
  let news_list := newsListOf env
  if news_list.isEmpty then
    { sent := [fallbackText], blocks := [], scrapedUrls := [], summarizeCalls := [] }
  else
    let results := (news_list.enum).map (fun p => processItem env p.1 p.2)
    { sent := [capMessage (assembledDigest env)]
      blocks := results.map Prod.fst
      scrapedUrls := news_list.map NewsItem.url
      summarizeCalls := (results.map Prod.snd).flatten }

/-! ### Concrete inputs used by witnesses and counterexamples -/

/-- A 5000-character title, long enough to push the digest over the
4800-character cap. -/
def longTitle : String := ⟨List.replicate 5000 'a'⟩

/-- An environment whose single feed item has the 5000-character title and
whose page fetches all fail. -/
def cexEnvC1 : Env :=
  { feed := some [{ title := longTitle, link := "u" }]
    pageOf := fun _ => none
    apiOf := fun _ => .error "e" }

/-- A small environment: one short feed item, all page fetches fail. -/
def smallFailEnv : Env :=
  { feed := some [{ title := "t", link := "u" }]
    pageOf := fun _ => none
    apiOf := fun _ => .error "e" }

/-- A page whose main-content region exists but is empty, so extraction
succeeds with the empty string. -/
def emptyTextPage : Page :=
  { matchedParagraphs := []
    articleBodyDiv := none
    mainText := some ""
    fullText := "" }

/-- An environment whose single feed item scrapes to the empty string. -/
def emptyTextEnv : Env :=
  { feed := some [{ title := "t", link := "u" }]
    pageOf := fun _ => some emptyTextPage
    apiOf := fun _ => .error "e" }

/-- A page with no article-body paragraphs whose main-content text has
3001 characters: the full-page fallback path of `scrape_article_body`. -/
def fallbackPage : Page :=
  { matchedParagraphs := []
    articleBodyDiv := none
    mainText := some ⟨List.replicate 3001 'b'⟩
    fullText := "" }

/-- The 3001-character main-content text of `fallbackPage`. -/
def fallbackLongText : String := ⟨List.replicate 3001 'b'⟩

/-- A page whose single matched paragraph has 3001 characters. -/
def longParagraphPage : Page :=
  { matchedParagraphs := [fallbackLongText]
    articleBodyDiv := none
    mainText := none
    fullText := "" }

/-! ### Helper lemmas -/

theorem pySlice_length (s : String) (n : Nat) : (pySlice s n).length = min n s.length :=
  List.length_take n s.data

theorem length_pos_ne_empty (s : String) (h : 0 < s.length) : s ≠ "" := by
  intro hs
  rw [hs] at h
  simp [String.length] at h

theorem capMessage_length_of_lt (m : String) (h : 4800 < m.length) :
    (capMessage m).length = 4800 + lineTruncMarker.length := by
  rw [capMessage, if_pos h, String.length_append, pySlice_length,
    Nat.min_eq_left (Nat.le_of_lt h)]

theorem main_eq_of_ne (env : Env) (h : newsListOf env ≠ []) :
    main env =
      { sent := [capMessage (assembledDigest env)]
        blocks := (((newsListOf env).enum).map (fun p => processItem env p.1 p.2)).map Prod.fst
        scrapedUrls := (newsListOf env).map NewsItem.url
        summarizeCalls :=
          ((((newsListOf env).enum).map (fun p => processItem env p.1 p.2)).map Prod.snd).flatten } := by
  rw [main, if_neg]
  rw [List.isEmpty_iff]
  exact h

theorem processItem_none (env : Env) (i : Nat) (item : NewsItem)
    (h : scrape_article_body (env.pageOf item.url) = none) :
    processItem env i item
      = (itemHeader i item.title ++ extractFailNotice ++ urlLine item.url, []) := by
  simp only [processItem, h]

theorem processItem_some_empty (env : Env) (i : Nat) (item : NewsItem) (s : String)
    (h : scrape_article_body (env.pageOf item.url) = some s) (hs : s.isEmpty = true) :
    processItem env i item
      = (itemHeader i item.title ++ extractFailNotice ++ urlLine item.url, []) := by
  simp only [processItem, h, hs, if_true]

theorem processItem_some_ne (env : Env) (i : Nat) (item : NewsItem) (s : String)
    (h : scrape_article_body (env.pageOf item.url) = some s) (hs : s.isEmpty = false) :
    processItem env i item
      = (itemHeader i item.title
           ++ (summarize_and_add_furigana item.title (some s) env.apiOf).1
           ++ urlLine item.url,
         [(item.title, s)]) := by
  simp only [processItem, h, hs, if_false, Bool.false_eq_true]

theorem processItem_shape (env : Env) (i : Nat) (item : NewsItem) :
    ∃ mid, (processItem env i item).1 = itemHeader i item.title ++ mid ++ urlLine item.url := by
  cases hsc : scrape_article_body (env.pageOf item.url) with
  | none => exact ⟨extractFailNotice, by rw [processItem_none env i item hsc]⟩
  | some s =>
      cases hs : s.isEmpty with
      | true =>
          exact ⟨extractFailNotice, by rw [processItem_some_empty env i item s hsc hs]⟩
      | false =>
          exact ⟨(summarize_and_add_furigana item.title (some s) env.apiOf).1,
            by rw [processItem_some_ne env i item s hsc hs]⟩

theorem processItem_calls_text_ne (env : Env) (i : Nat) (item : NewsItem) :
    ∀ c ∈ (processItem env i item).2, c.2 ≠ "" := by
  cases hsc : scrape_article_body (env.pageOf item.url) with
  | none => rw [processItem_none env i item hsc]; simp
  | some s =>
      cases hs : s.isEmpty with
      | true => rw [processItem_some_empty env i item s hsc hs]; simp
      | false =>
          rw [processItem_some_ne env i item s hsc hs]
          intro c hc
          simp at hc
          rw [hc]
          show s ≠ ""
          intro hse
          rw [hse] at hs
          exact absurd hs (by decide)

theorem itemHeader_length (i : Nat) (title : String) :
    itemHeader i title = "📰 **記事 " ++ toString (i + 1) ++ "**：" ++ title ++ "\n" := rfl

/-! ### Claims -/

/-- C7: a feed response with at least 3 entries yields exactly the first 3
entries, in feed order, as NewsItems carrying each entry's title and link;
in general the result has at most `count` entries. -/
theorem C7_feed_take_three (entries : List Entry) (h : 3 ≤ entries.length) :
    get_latest_news_from_rss (some entries) 3
        = (entries.take 3).map (fun e => { title := e.title, url := e.link }) ∧
    (get_latest_news_from_rss (some entries) 3).length = 3 ∧
    ∀ (feed : Option (List Entry)) (count : Nat),
      (get_latest_news_from_rss feed count).length ≤ count := by
  have hne : ¬entries.isEmpty = true := by
    rw [List.isEmpty_iff]
    intro hnil
    rw [hnil] at h
    simp at h
  refine ⟨?_, ?_, ?_⟩
  · rw [get_latest_news_from_rss, if_neg hne]
  · rw [get_latest_news_from_rss, if_neg hne, List.length_map, List.length_take,
      Nat.min_eq_left h]
  · intro feed count
    cases feed with
    | none => simp [get_latest_news_from_rss]
    | some es =>
        rw [get_latest_news_from_rss]
        by_cases he : es.isEmpty
        · rw [if_pos he]
          simp
        · rw [if_neg he, List.length_map, List.length_take]
          exact Nat.min_le_left _ _

/-- C7 witness at a concrete 4-entry feed. -/
theorem C7_feed_take_three_witness :
    get_latest_news_from_rss
        (some [⟨"t1", "u1"⟩, ⟨"t2", "u2"⟩, ⟨"t3", "u3"⟩, ⟨"t4", "u4"⟩]) 3
      = [⟨"t1", "u1"⟩, ⟨"t2", "u2"⟩, ⟨"t3", "u3"⟩] ∧
    (get_latest_news_from_rss
        (some [⟨"t1", "u1"⟩, ⟨"t2", "u2"⟩, ⟨"t3", "u3"⟩, ⟨"t4", "u4"⟩]) 3).length = 3 := by
  have h := C7_feed_take_three [⟨"t1", "u1"⟩, ⟨"t2", "u2"⟩, ⟨"t3", "u3"⟩, ⟨"t4", "u4"⟩]
    (by decide)
  exact ⟨by rw [h.1]; decide, h.2.1⟩

/-- C2 counterexample: on a page where the main-content fallback produced
the text, `scrape_article_body` returns 3001 characters untruncated — not
the first 3000 characters plus an ellipsis — so the cap does not apply
regardless of which fallback strategy produced the text. -/
theorem C2_counterexample :
    scrape_article_body (some fallbackPage) = some fallbackLongText ∧
    3000 < fallbackLongText.length ∧
    scrape_article_body (some fallbackPage)
      ≠ some (pySlice fallbackLongText 3000 ++ "...") := by
  have hlen : fallbackLongText.length = 3001 := List.length_replicate 3001 'b'
  have h1 : scrape_article_body (some fallbackPage) = some fallbackLongText := rfl
  refine ⟨h1, by rw [hlen]; norm_num, ?_⟩
  rw [h1]
  intro h
  have h2 := congrArg (fun o => (Option.getD o "").length) h
  simp only [Option.getD_some] at h2
  rw [hlen, String.length_append, pySlice_length, hlen] at h2
  have h3 : "...".length = 3 := rfl
  rw [h3] at h2
  norm_num at h2

/-- C2 amended: when one of the two paragraph strategies produced the
text (the effective paragraph list is non-empty) and the joined non-empty
paragraph texts exceed 3000 characters, the extractor returns exactly the
first 3000 characters plus an ellipsis; the main-content/full-page
fallback is exempt from the cap. -/
theorem C2_truncation_paragraph_only (page : Page)
    (hpar : (effectiveParagraphs page).isEmpty = false)
    (hlen : MAX_CHARS < (joinedParagraphText page).length) :
    scrape_article_body (some page)
      = some (pySlice (joinedParagraphText page) MAX_CHARS ++ "...") := by
  simp only [scrape_article_body, hpar, Bool.false_eq_true, if_false, if_pos hlen]

/-- C2 witness: a single 3001-character matched paragraph is truncated to
3000 characters plus the ellipsis. -/
theorem C2_truncation_paragraph_only_witness :
    scrape_article_body (some longParagraphPage)
      = some (pySlice (joinedParagraphText longParagraphPage) MAX_CHARS ++ "...") := by
  have hlen : fallbackLongText.length = 3001 := List.length_replicate 3001 'b'
  have hne0 : fallbackLongText ≠ "" :=
    length_pos_ne_empty _ (by rw [hlen]; norm_num)
  have hie : fallbackLongText.isEmpty = false := by
    cases hb : fallbackLongText.isEmpty
    · rfl
    · exact absurd ((String.isEmpty_iff _).mp hb) hne0
  apply C2_truncation_paragraph_only
  · rfl
  · show MAX_CHARS <
      (pyJoin "\n" ((effectiveParagraphs longParagraphPage).filter (fun p => !p.isEmpty))).length
    have hpars : effectiveParagraphs longParagraphPage = [fallbackLongText] := rfl
    rw [hpars, List.filter_cons, hie]
    simp only [Bool.not_false, if_true, List.filter_nil]
    show MAX_CHARS < (pyJoin "\n" [fallbackLongText]).length
    rw [show pyJoin "\n" [fallbackLongText] = fallbackLongText from rfl, hlen]
    decide

/-- C8: the Summarizer is a total function (the embedding returns a string
on every input).  Absent or empty text yields the fixed sentinel with zero
API calls; an API failure with detail `e` yields one API call and a result
embedding `e`. -/
theorem C8_summarizer_total (title : String) (article_text : Option String)
    (api : String → Except String String) :
    (strFalsy article_text = true →
      summarize_and_add_furigana title article_text api = (noSummarySentinel, 0)) ∧
    (∀ e, strFalsy article_text = false →
      api (buildPrompt title (article_text.getD "")) = .error e →
      (summarize_and_add_furigana title article_text api).2 = 1 ∧
      ∃ a b, (summarize_and_add_furigana title article_text api).1 = a ++ e ++ b) := by
  constructor
  · intro hf
    rw [summarize_and_add_furigana, if_pos hf]
  · intro e hf he
    rw [summarize_and_add_furigana, if_neg (by rw [hf]; exact Bool.false_ne_true), he]
    refine ⟨rfl, "要約生成中にエラーが発生しました。\nエラー内容: ", "", ?_⟩
    rw [String.append_empty]

/-- C8 witness: the empty-text sentinel at empty text, and the degraded
error embedding at a failing API call. -/
theorem C8_summarizer_total_witness :
    summarize_and_add_furigana "t" (some "") (fun _ => .ok "s") = (noSummarySentinel, 0) ∧
    (summarize_and_add_furigana "t" (some "body") (fun _ => .error "boom")).2 = 1 ∧
    ∃ a b, (summarize_and_add_furigana "t" (some "body") (fun _ => .error "boom")).1
      = a ++ "boom" ++ b := by
  refine ⟨(C8_summarizer_total "t" (some "") (fun _ => .ok "s")).1 (by decide), ?_⟩
  exact (C8_summarizer_total "t" (some "body") (fun _ => .error "boom")).2 "boom"
    (by decide) rfl

/-- C9: with a missing or empty recipient id or credential the Notifier
returns false and makes no POST; with both present it makes exactly one
POST and returns true exactly when that POST succeeded; it never makes
more than one POST. -/
theorem C9_notifier (user_id token : Option String) (message : String)
    (post : Except String Unit) :
    ((strFalsy user_id = true ∨ strFalsy token = true) →
      send_line_message user_id message token post = (false, 0)) ∧
    (strFalsy user_id = false → strFalsy token = false →
      ((send_line_message user_id message token post).1 = true ↔ post = .ok ()) ∧
      (send_line_message user_id message token post).2 = 1) ∧
    (send_line_message user_id message token post).2 ≤ 1 := by
  refine ⟨?_, ?_, ?_⟩
  · intro hf
    simp only [send_line_message]
    rw [if_pos]
    rcases hf with hf | hf <;> rw [hf] <;> simp
  · intro hu ht
    simp only [send_line_message]
    rw [if_neg (by rw [hu, ht]; exact Bool.false_ne_true)]
    cases post with
    | ok u => cases u; simp
    | error e => simp
  · simp only [send_line_message]
    by_cases h : (strFalsy user_id || strFalsy token) = true
    · rw [if_pos h]
      simp
    · rw [if_neg h]
      cases post <;> simp

/-- C9 witness: missing token short-circuits; present credentials with a
successful POST return true after one POST. -/
theorem C9_notifier_witness :
    send_line_message (some "uid") "msg" none (.ok ()) = (false, 0) ∧
    send_line_message (some "uid") "msg" (some "tok") (.ok ()) = (true, 1) := by
  constructor
  · exact (C9_notifier (some "uid") none "msg" (.ok ())).1 (Or.inr (by decide))
  · have h := ((C9_notifier (some "uid") (some "tok") "msg" (.ok ())).2.1
      (by decide) (by decide))
    have h1 : (send_line_message (some "uid") "msg" (some "tok") (.ok ())).1 = true :=
      h.1.mpr rfl
    have h2 : (send_line_message (some "uid") "msg" (some "tok") (.ok ())).2 = 1 := h.2
    exact Prod.ext h1 h2

theorem capMessage_le (m : String) :
    (capMessage m).length ≤ 4800 + lineTruncMarker.length := by
  by_cases hm : 4800 < m.length
  · rw [capMessage_length_of_lt m hm]
  · rw [capMessage, if_neg hm]
    exact le_trans (Nat.le_of_not_lt hm) (Nat.le_add_right _ _)

theorem digest_cexEnvC1_long : 4800 < (assembledDigest cexEnvC1).length := by
  have hT : longTitle.length = 5000 := List.length_replicate 5000 'a'
  have hdig : assembledDigest cexEnvC1
      = "🌞 今朝の厳選ニュース " ++ toString 1 ++ "本 🗞️\n" ++
        "==================================\n\n" ++
        (itemHeader 0 longTitle ++ extractFailNotice ++ urlLine "u") ++
        "\n\n==================================" := rfl
  rw [hdig]
  simp [String.length_append, itemHeader, extractFailNotice, urlLine, hT]
  decide

/-- C4: when the news list comes back empty, the run sends exactly one
message, the fixed fallback text, scrapes nothing and summarizes
nothing. -/
theorem C4_empty_feed_fallback (env : Env) (h : newsListOf env = []) :
    (main env).sent = [fallbackText] ∧
    (main env).scrapedUrls = [] ∧
    (main env).summarizeCalls = [] ∧
    (main env).blocks = [] := by
  have he : (newsListOf env).isEmpty = true := List.isEmpty_iff.mpr h
  simp only [main, he, if_true]
  exact ⟨trivial, trivial, trivial, trivial⟩

/-- C4 witness: a feed whose parse failed. -/
theorem C4_empty_feed_fallback_witness :
    (main { feed := none, pageOf := fun _ => none, apiOf := fun _ => .error "e" }).sent
      = [fallbackText] ∧
    (main { feed := none, pageOf := fun _ => none, apiOf := fun _ => .error "e" }).scrapedUrls
      = [] ∧
    (main { feed := none, pageOf := fun _ => none, apiOf := fun _ => .error "e" }).summarizeCalls
      = [] ∧
    (main { feed := none, pageOf := fun _ => none, apiOf := fun _ => .error "e" }).blocks
      = [] :=
  C4_empty_feed_fallback _ rfl

/-- C3: on the non-empty path the single sent message is the assembled
digest itself when it has at most 4800 characters, and exactly its first
4800 characters followed by the fixed truncation marker otherwise. -/
theorem C3_truncated_message (env : Env) (h : newsListOf env ≠ []) :
    (main env).sent
      = [if 4800 < (assembledDigest env).length
         then pySlice (assembledDigest env) 4800 ++ lineTruncMarker
         else assembledDigest env] := by
  rw [main_eq_of_ne env h]
  rfl

/-- C3 witness at a small environment whose digest is short. -/
theorem C3_truncated_message_witness :
    (main smallFailEnv).sent
      = [if 4800 < (assembledDigest smallFailEnv).length
         then pySlice (assembledDigest smallFailEnv) 4800 ++ lineTruncMarker
         else assembledDigest smallFailEnv] :=
  C3_truncated_message smallFailEnv (by decide)

/-- C1 counterexample: with a 5000-character item title the assembled
digest exceeds 4800 characters and the single message passed to the
Notifier has 4800 + 28 = 4828 characters — beyond the 4800-character
ceiling, because the truncation marker is appended after the cut. -/
theorem C1_counterexample :
    (main cexEnvC1).sent.length = 1 ∧
    4800 < ((main cexEnvC1).sent.headD "").length := by
  have hsent : (main cexEnvC1).sent = [capMessage (assembledDigest cexEnvC1)] := rfl
  have hlen1 : (main cexEnvC1).sent.length = 1 := by
    rw [hsent, List.length_singleton]
  have hhd : (main cexEnvC1).sent.headD "" = capMessage (assembledDigest cexEnvC1) := by
    rw [hsent, List.headD_cons]
  have hcap : (capMessage (assembledDigest cexEnvC1)).length
      = 4800 + lineTruncMarker.length :=
    capMessage_length_of_lt _ digest_cexEnvC1_long
  have hmk : 0 < lineTruncMarker.length := by decide
  refine ⟨hlen1, ?_⟩
  rw [hhd, hcap]
  omega

/-- C1 amended: every message passed to the Notifier on a digest run has
length at most 4800 plus the length of the truncation marker (4828
characters in total); the 4800-character bound applies to the digest
content before the marker is appended, not to the sent message. -/
theorem C1_amended_bound (env : Env) (h : newsListOf env ≠ []) :
    ∀ m ∈ (main env).sent, m.length ≤ 4800 + lineTruncMarker.length := by
  rw [main_eq_of_ne env h]
  intro m hm
  simp only [List.mem_singleton] at hm
  rw [hm]
  exact capMessage_le _

/-- C1 witness: the bound at a small environment. -/
theorem C1_amended_bound_witness :
    (capMessage (assembledDigest smallFailEnv)).length ≤ 4800 + lineTruncMarker.length := by
  have hsent : (main smallFailEnv).sent = [capMessage (assembledDigest smallFailEnv)] := rfl
  have hmem : capMessage (assembledDigest smallFailEnv) ∈ (main smallFailEnv).sent := by
    rw [hsent]
    exact List.mem_singleton.mpr rfl
  exact C1_amended_bound smallFailEnv (by decide) _ hmem

/-- C5: an item whose extraction returns absent gets the synthesized
failure block — header, explicit failure notice, url line — which contains
its title and its url; no summarizer invocation is recorded for it; and
the run's block list is the independent per-item map, so sibling items are
unaffected. -/
theorem C5_extraction_failure_block (env : Env) (i : Nat) (item : NewsItem)
    (hmem : (i, item) ∈ (newsListOf env).enum)
    (hfail : scrape_article_body (env.pageOf item.url) = none) :
    (processItem env i item).1
      = itemHeader i item.title ++ extractFailNotice ++ urlLine item.url ∧
    (∃ a b, (processItem env i item).1 = a ++ item.title ++ b) ∧
    (∃ a b, (processItem env i item).1 = a ++ item.url ++ b) ∧
    (processItem env i item).2 = [] ∧
    (main env).blocks
      = ((newsListOf env).enum).map (fun p => (processItem env p.1 p.2).1) := by
  have hpi := processItem_none env i item hfail
  have hblock : (processItem env i item).1
      = itemHeader i item.title ++ extractFailNotice ++ urlLine item.url := by
    rw [hpi]
  refine ⟨hblock, ?_, ?_, by rw [hpi], ?_⟩
  · refine ⟨"📰 **記事 " ++ toString (i + 1) ++ "**：",
      "\n" ++ extractFailNotice ++ urlLine item.url, ?_⟩
    rw [hblock]
    apply String.ext
    simp [itemHeader, String.data_append, List.append_assoc]
  · refine ⟨itemHeader i item.title ++ extractFailNotice ++ "\n🔗 記事URL: ", "", ?_⟩
    rw [hblock, String.append_empty]
    apply String.ext
    simp [urlLine, String.data_append, List.append_assoc]
  · have hne : newsListOf env ≠ [] := by
      intro h0
      rw [h0] at hmem
      simp at hmem
    rw [main_eq_of_ne env hne, List.map_map]
    rfl

/-- C5 witness: the failing item of `smallFailEnv`. -/
theorem C5_extraction_failure_block_witness :
    (processItem smallFailEnv 0 { title := "t", url := "u" }).1
      = itemHeader 0 "t" ++ extractFailNotice ++ urlLine "u" ∧
    (processItem smallFailEnv 0 { title := "t", url := "u" }).2 = [] := by
  have h := C5_extraction_failure_block smallFailEnv 0 { title := "t", url := "u" }
    (by decide) rfl
  exact ⟨h.1, h.2.2.2.1⟩

/-- C6: every SummaryBlock produced in the per-item loop is non-empty and
contains both the item title and the item url, whatever happened
upstream. -/
theorem C6_block_contains_title_url (env : Env) (i : Nat) (item : NewsItem)
    (hmem : (i, item) ∈ (newsListOf env).enum) :
    (processItem env i item).1 ≠ "" ∧
    (∃ a b, (processItem env i item).1 = a ++ item.title ++ b) ∧
    (∃ a b, (processItem env i item).1 = a ++ item.url ++ b) ∧
    (main env).blocks
      = ((newsListOf env).enum).map (fun p => (processItem env p.1 p.2).1) := by
  obtain ⟨mid, hmid⟩ := processItem_shape env i item
  have hhd : 0 < (itemHeader i item.title).length := by
    rw [itemHeader_length, String.length_append]
    have h1 : ("\n").length = 1 := rfl
    rw [h1]
    omega
  refine ⟨?_, ?_, ?_, ?_⟩
  · rw [hmid]
    apply length_pos_ne_empty
    rw [String.length_append, String.length_append]
    omega
  · refine ⟨"📰 **記事 " ++ toString (i + 1) ++ "**：",
      "\n" ++ mid ++ urlLine item.url, ?_⟩
    rw [hmid]
    apply String.ext
    simp [itemHeader, String.data_append, List.append_assoc]
  · refine ⟨itemHeader i item.title ++ mid ++ "\n🔗 記事URL: ", "", ?_⟩
    rw [hmid, String.append_empty]
    apply String.ext
    simp [urlLine, String.data_append, List.append_assoc]
  · have hne : newsListOf env ≠ [] := by
      intro h0
      rw [h0] at hmem
      simp at hmem
    rw [main_eq_of_ne env hne, List.map_map]
    rfl

/-- C6 witness: the single item of `smallFailEnv`. -/
theorem C6_block_contains_title_url_witness :
    (processItem smallFailEnv 0 { title := "t", url := "u" }).1 ≠ "" ∧
    (∃ a b, (processItem smallFailEnv 0 { title := "t", url := "u" }).1 = a ++ "t" ++ b) ∧
    (∃ a b, (processItem smallFailEnv 0 { title := "t", url := "u" }).1 = a ++ "u" ++ b) := by
  have h := C6_block_contains_title_url smallFailEnv 0 { title := "t", url := "u" }
    (by decide)
  exact ⟨h.1, h.2.1, h.2.2.1⟩

/-- C10: an extraction result of the empty string is handled exactly like
an absent one — the failure block is synthesized and no summarizer
invocation is recorded — and consequently every summarizer invocation of a
run carries non-empty article text, so the empty-text sentinel of the
Summarizer is unreachable through the pipeline. -/
theorem C10_empty_text_like_absent (env : Env) (i : Nat) (item : NewsItem)
    (hempty : scrape_article_body (env.pageOf item.url) = some "") :
    processItem env i item
      = (itemHeader i item.title ++ extractFailNotice ++ urlLine item.url, []) ∧
    ∀ c ∈ (main env).summarizeCalls, c.2 ≠ "" := by
  refine ⟨processItem_some_empty env i item "" hempty rfl, ?_⟩
  by_cases hn : newsListOf env = []
  · have he : (newsListOf env).isEmpty = true := List.isEmpty_iff.mpr hn
    simp only [main, he, if_true]
    simp
  · rw [main_eq_of_ne env hn]
    intro c hc
    simp only [List.map_map, List.mem_flatten, List.mem_map] at hc
    obtain ⟨l, ⟨p, hp, hpl⟩, hcl⟩ := hc
    apply processItem_calls_text_ne env p.1 p.2
    rw [← hpl] at hcl
    exact hcl

/-- C10 witness: the empty-extraction item of `emptyTextEnv`. -/
theorem C10_empty_text_like_absent_witness :
    processItem emptyTextEnv 0 { title := "t", url := "u" }
      = (itemHeader 0 "t" ++ extractFailNotice ++ urlLine "u", []) :=
  (C10_empty_text_like_absent emptyTextEnv 0 { title := "t", url := "u" } rfl).1

end NewsBot
